import Mathlib

/-!
Shallow embedding of the Solana donation-vault program
(`programs/donation/src/lib.rs`, Anchor) for verification.

Modelling conventions:
* `u64` lamport amounts and counters are `Nat`; the program's
  `checked_add`/`checked_sub` become `checkedAdd`/`checkedSub` over the
  `u64` range, returning `none` exactly where the Rust returns `None`.
* `Pubkey` values are `Nat`; the system-program id and `Pubkey::default()`
  are both the all-zero key, hence both `0` here.
* Each Anchor instruction handler becomes a pure function from its account
  state and arguments to `Except TxError result`.  An error result carries
  no state: the Solana runtime discards every account write of a failed
  instruction, so the committed state on failure is the pre-call state
  (made explicit by `commit`).
* The system-program transfer CPI inside `donate` fails iff the donor's
  lamport balance is below the transferred amount (`TxError.transferFailed`).
* Event emission (`emit!`) and logging (`msg!`) have no state effect and are
  omitted; `Clock::get()` is passed in as the `now` argument.
-/

/-- Upper bound of the `u64` range. -/
def U64_MAX : Nat := 2 ^ 64 - 1

/-- Rust `u64::checked_add` over the embedded `Nat` values. -/
def checkedAdd (a b : Nat) : Option Nat :=
  if a + b ≤ U64_MAX then some (a + b) else none

/-- Rust `u64::checked_sub` over the embedded `Nat` values. -/
def checkedSub (a b : Nat) : Option Nat :=
  if b ≤ a then some (a - b) else none

/-- Donation tier thresholds, from the constants in `lib.rs`. -/
def TIER_BRONZE : Nat := 1000000

/-- Silver tier threshold (0.1 SOL). -/
def TIER_SILVER : Nat := 100000000

/-- Gold tier threshold (1 SOL). -/
def TIER_GOLD : Nat := 1000000000

/-- Platinum tier threshold (10 SOL). -/
def TIER_PLATINUM : Nat := 10000000000

/-- Default minimum donation amount in lamports (0.001 SOL). -/
def DEFAULT_MIN_DONATION : Nat := 1000000

/-- Default maximum donation amount in lamports (100 SOL). -/
def DEFAULT_MAX_DONATION : Nat := 100000000000

/-- Milestone: 1 SOL. -/
def MILESTONE_1_SOL : Nat := 1000000000

/-- Milestone: 10 SOL. -/
def MILESTONE_10_SOL : Nat := 10000000000

/-- Milestone: 100 SOL. -/
def MILESTONE_100_SOL : Nat := 100000000000

/-- Milestone: 1000 SOL. -/
def MILESTONE_1000_SOL : Nat := 1000000000000

/-- The system program id `11111111111111111111111111111111` is the all-zero
key, embedded as `0`. -/
def SYSTEM_PROGRAM_ID : Nat := 0

/-- Rust `Pubkey::default()` is the all-zero key, embedded as `0`. -/
def PUBKEY_DEFAULT : Nat := 0

/-- The `DonorTier` enum of `lib.rs`. -/
inductive DonorTier where
  | bronze
  | silver
  | gold
  | platinum
deriving DecidableEq, Repr

/-- Rank of a tier under the ordering Bronze < Silver < Gold < Platinum. -/
def tierRank : DonorTier → Nat
  | .bronze => 0
  | .silver => 1
  | .gold => 2
  | .platinum => 3

/-- The `DonationError` enum of `lib.rs` (`#[error_code]`). -/
inductive DonationError where
  | DonationTooSmall
  | DonationTooLarge
  | Unauthorized
  | InsufficientFunds
  | Overflow
  | ContractPaused
  | InvalidAmount
  | DonorNotFound
  | RefundExceedsDonation
  | VaultBalanceTooLow
  | InvalidAdmin
  | InvalidLimits
  | InvalidTimestamp
  | AlreadyInitialized
  | TierRestriction
deriving DecidableEq, Repr

/-- Errors an instruction can propagate: one of the program's own
`DonationError`s, or a failure of the system-program transfer CPI. -/
inductive TxError where
  | donation (e : DonationError)
  | transferFailed
deriving DecidableEq, Repr

/-- The `VaultState` account of `lib.rs`. -/
structure VaultState where
  admin : Nat
  total_donated : Nat
  donation_count : Nat
  is_paused : Bool
  min_donation_amount : Nat
  max_donation_amount : Nat
  total_withdrawn : Nat
  unique_donors : Nat
  bump : Nat
deriving DecidableEq, Repr

/-- The `DonorInfo` account of `lib.rs`. -/
structure DonorInfo where
  donor : Nat
  total_donated : Nat
  donation_count : Nat
  last_donation_timestamp : Int
  tier : DonorTier
deriving DecidableEq, Repr

/-- Solana commit semantics: a failed instruction leaves every account as it
was before the call, a successful one commits its result. -/
def commit {σ : Type} (pre : σ) : Except TxError σ → σ
  | .ok post => post
  | .error _ => pre

/-- Embeds `calculate_tier` from `lib.rs`. -/
def calculate_tier (total_donated : Nat) : DonorTier :=
  if total_donated ≥ TIER_PLATINUM then .platinum
  else if total_donated ≥ TIER_GOLD then .gold
  else if total_donated ≥ TIER_SILVER then .silver
  else .bronze

/-- The milestone array iterated by `check_milestone_reached` in `lib.rs`. -/
def milestones : List Nat :=
  [MILESTONE_1_SOL, MILESTONE_10_SOL, MILESTONE_100_SOL, MILESTONE_1000_SOL]

/-- Embeds `check_milestone_reached` from `lib.rs`: the loop over the milestone
array returns the first element with `previous_total < m ∧ new_total ≥ m`. -/
def check_milestone_reached (previous_total new_total : Nat) : Option Nat :=
  milestones.find? fun m => decide (previous_total < m) && decide (new_total ≥ m)

/-- Models `initialize` from `lib.rs` (the Rust name is a Lean keyword):
writes the default configuration.  Its body never returns an error (double
initialization is rejected by the account layer, outside the handler). -/
def initVault (admin : Nat) (bump : Nat) : Except TxError VaultState :=
  .ok { admin := admin
        total_donated := 0
        donation_count := 0
        is_paused := false
        min_donation_amount := DEFAULT_MIN_DONATION
        max_donation_amount := DEFAULT_MAX_DONATION
        total_withdrawn := 0
        unique_donors := 0
        bump := bump }

/-- Embeds `donate` from `lib.rs`.  Arguments: vault state, the donor's `DonorInfo`
(all-zero for a fresh `init_if_needed` account), the donor key, the donor's
and the vault's lamport balances, the donated amount, and the clock.
Returns the new `(vault_state, donor_info, vault balance, donor balance)`. -/
def donate (s : VaultState) (d : DonorInfo) (donorKey : Nat)
    (vaultBalance donorBalance : Nat) (amount : Nat) (now : Int) :
    Except TxError (VaultState × DonorInfo × Nat × Nat) :=
  if s.is_paused then .error (.donation .ContractPaused)
  else if amount < s.min_donation_amount then .error (.donation .DonationTooSmall)
  else if s.max_donation_amount < amount then .error (.donation .DonationTooLarge)
  else if donorBalance < amount then .error .transferFailed
  else
    let vaultBalance1 := vaultBalance + amount
    let donorBalance1 := donorBalance - amount
    let is_new_donor := d.donation_count = 0
    match checkedAdd s.total_donated amount with
    | none => .error (.donation .Overflow)
    | some td =>
      match checkedAdd s.donation_count 1 with
      | none => .error (.donation .Overflow)
      | some dc =>
        match (if is_new_donor then checkedAdd s.unique_donors 1
               else some s.unique_donors) with
        | none => .error (.donation .Overflow)
        | some ud =>
          let s1 := { s with total_donated := td, donation_count := dc,
                             unique_donors := ud }
          match checkedAdd d.total_donated amount with
          | none => .error (.donation .Overflow)
          | some dtd =>
            match checkedAdd d.donation_count 1 with
            | none => .error (.donation .Overflow)
            | some ddc =>
              let d1 := { d with donor := donorKey
                                 total_donated := dtd
                                 donation_count := ddc
                                 last_donation_timestamp := now
                                 tier := calculate_tier dtd }
              .ok (s1, d1, vaultBalance1, donorBalance1)

/-- Embeds `withdraw` from `lib.rs`.  Arguments: caller key, vault state, the
vault's and admin's lamport balances, the rent-exempt minimum of the vault
account.  Returns `(vault_state, vault balance, admin balance)`. -/
def withdraw (caller : Nat) (s : VaultState)
    (vaultBalance adminBalance rentExemptMinimum : Nat) :
    Except TxError (VaultState × Nat × Nat) :=
  if caller ≠ s.admin then .error (.donation .Unauthorized)
  else if vaultBalance = 0 then .error (.donation .InsufficientFunds)
  else if vaultBalance ≤ rentExemptMinimum then .error (.donation .InsufficientFunds)
  else
    let withdraw_amount := vaultBalance - rentExemptMinimum
    match checkedAdd s.total_withdrawn withdraw_amount with
    | none => .error (.donation .Overflow)
    | some tw =>
      .ok ({ s with total_withdrawn := tw },
           vaultBalance - withdraw_amount, adminBalance + withdraw_amount)

/-- Embeds `withdraw_partial` from `lib.rs`. -/
def withdraw_partial (caller : Nat) (amount : Nat) (s : VaultState)
    (vaultBalance adminBalance rentExemptMinimum : Nat) :
    Except TxError (VaultState × Nat × Nat) :=
  if caller ≠ s.admin then .error (.donation .Unauthorized)
  else if vaultBalance = 0 then .error (.donation .InsufficientFunds)
  else if amount = 0 then .error (.donation .InvalidAmount)
  else if vaultBalance < amount + rentExemptMinimum then
    .error (.donation .InsufficientFunds)
  else
    match checkedAdd s.total_withdrawn amount with
    | none => .error (.donation .Overflow)
    | some tw =>
      .ok ({ s with total_withdrawn := tw },
           vaultBalance - amount, adminBalance + amount)

/-- Embeds `emergency_withdraw` from `lib.rs`: `amount = 0` is the sentinel for
withdrawing everything above the rent-exempt minimum. -/
def emergency_withdraw (caller : Nat) (amount : Nat) (s : VaultState)
    (vaultBalance adminBalance rentExemptMinimum : Nat) :
    Except TxError (VaultState × Nat × Nat) :=
  if caller ≠ s.admin then .error (.donation .Unauthorized)
  else if vaultBalance = 0 then .error (.donation .InsufficientFunds)
  else
    let amtE : Except TxError Nat :=
      if amount = 0 then
        if vaultBalance ≤ rentExemptMinimum then
          .error (.donation .InsufficientFunds)
        else .ok (vaultBalance - rentExemptMinimum)
      else
        if vaultBalance < amount + rentExemptMinimum then
          .error (.donation .InsufficientFunds)
        else .ok amount
    match amtE with
    | .error e => .error e
    | .ok withdraw_amount =>
      match checkedAdd s.total_withdrawn withdraw_amount with
      | none => .error (.donation .Overflow)
      | some tw =>
        .ok ({ s with total_withdrawn := tw },
             vaultBalance - withdraw_amount, adminBalance + withdraw_amount)

/-- Embeds `refund_donation` from `lib.rs`.  Returns the new
`(vault_state, donor_info, vault balance, donor wallet balance)`;
`vault_state` itself is not mutated by a refund. -/
def refund_donation (caller : Nat) (amount : Nat) (s : VaultState)
    (d : DonorInfo) (vaultBalance donorWalletBalance rentExemptMinimum : Nat) :
    Except TxError (VaultState × DonorInfo × Nat × Nat) :=
  if caller ≠ s.admin then .error (.donation .Unauthorized)
  else if amount = 0 then .error (.donation .InvalidAmount)
  else if d.total_donated < amount then .error (.donation .RefundExceedsDonation)
  else if vaultBalance < amount + rentExemptMinimum then
    .error (.donation .InsufficientFunds)
  else
    match checkedSub d.total_donated amount with
    | none => .error (.donation .Overflow)
    | some dtd =>
      let d1 := { d with total_donated := dtd, tier := calculate_tier dtd }
      .ok (s, d1, vaultBalance - amount, donorWalletBalance + amount)

/-- Embeds `pause` from `lib.rs`: admin-only; sets `is_paused` unconditionally. -/
def pause (caller : Nat) (s : VaultState) : Except TxError VaultState :=
  if caller ≠ s.admin then .error (.donation .Unauthorized)
  else .ok { s with is_paused := true }

/-- Embeds `unpause` from `lib.rs`: admin-only; clears `is_paused` unconditionally. -/
def unpause (caller : Nat) (s : VaultState) : Except TxError VaultState :=
  if caller ≠ s.admin then .error (.donation .Unauthorized)
  else .ok { s with is_paused := false }

/-- Embeds `update_admin` from `lib.rs`. -/
def update_admin (caller new_admin : Nat) (s : VaultState) :
    Except TxError VaultState :=
  if caller ≠ s.admin then .error (.donation .Unauthorized)
  else if new_admin = SYSTEM_PROGRAM_ID then .error (.donation .InvalidAdmin)
  else if new_admin = PUBKEY_DEFAULT then .error (.donation .InvalidAdmin)
  else .ok { s with admin := new_admin }

/-- Embeds `update_donation_limits` from `lib.rs`. -/
def update_donation_limits (caller : Nat) (min_amount max_amount : Nat)
    (s : VaultState) : Except TxError VaultState :=
  if caller ≠ s.admin then .error (.donation .Unauthorized)
  else if min_amount = 0 then .error (.donation .InvalidAmount)
  else if max_amount ≤ min_amount then .error (.donation .InvalidAmount)
  else .ok { s with min_donation_amount := min_amount,
                    max_donation_amount := max_amount }

/-- Unfolding lemma for a successful `checkedAdd`. -/
lemma checkedAdd_some {a b c : Nat} (h : checkedAdd a b = some c) : c = a + b := by
  unfold checkedAdd at h
  split at h
  · exact (Option.some.injEq _ _ ▸ h).symm
  · exact Option.noConfusion h

/-- Unfolding lemma for a successful `checkedSub`. -/
lemma checkedSub_some {a b c : Nat} (h : checkedSub a b = some c) :
    c = a - b ∧ b ≤ a := by
  unfold checkedSub at h
  split at h
  · exact ⟨(Option.some.injEq _ _ ▸ h).symm, by assumption⟩
  · exact Option.noConfusion h

/-- A freshly initialized vault administered by key `1`, used as a concrete
test state. -/
def sampleVault : VaultState :=
  { admin := 1
    total_donated := 0
    donation_count := 0
    is_paused := false
    min_donation_amount := DEFAULT_MIN_DONATION
    max_donation_amount := DEFAULT_MAX_DONATION
    total_withdrawn := 0
    unique_donors := 0
    bump := 254 }

/-- State `sampleVault` with donations paused. -/
def pausedVault : VaultState := { sampleVault with is_paused := true }

/-- A donor record that has donated 10 lamports in one donation. -/
def sampleDonor : DonorInfo :=
  { donor := 2
    total_donated := 10
    donation_count := 1
    last_donation_timestamp := 0
    tier := .bronze }

/-- A donor record whose cumulative total sits at the top of the `u64`
range, so the next donor-side `checked_add` overflows. -/
def maxDonor : DonorInfo :=
  { donor := 2
    total_donated := U64_MAX
    donation_count := 5
    last_donation_timestamp := 0
    tier := .platinum }

/-- Claim C6: `calculate_tier` is monotone: for all amounts `a1 ≤ a2`,
the tier of `a1` is at most the tier of `a2` under the ordering
Bronze < Silver < Gold < Platinum. -/
theorem tier_monotone (a1 a2 : Nat) (h : a1 ≤ a2) :
    tierRank (calculate_tier a1) ≤ tierRank (calculate_tier a2) := by
  simp only [calculate_tier, TIER_PLATINUM, TIER_GOLD, TIER_SILVER, ge_iff_le]
  split_ifs <;> simp only [tierRank] <;> omega

/-- Witness for claim C6 at the concrete pair `5 ≤ TIER_GOLD`. -/
theorem tier_monotone_witness :
    tierRank (calculate_tier 5) ≤ tierRank (calculate_tier TIER_GOLD) :=
  tier_monotone 5 TIER_GOLD (by decide)

/-- State of `sampleDonor` after a full refund of its 10 donated lamports. -/
def refundedDonor : DonorInfo :=
  { donor := 2
    total_donated := 0
    donation_count := 1
    last_donation_timestamp := 0
    tier := .bronze }

/-- Claim C10: Bronze is a floor tier: every amount below the Silver
threshold (including 0) maps to Bronze, `refund_donation` recomputes the
tier from the new total (hence Bronze after a full refund), and every
reachable tier lies in the four-element enum. -/
theorem bronze_floor :
    (∀ a : Nat, a < TIER_SILVER → calculate_tier a = DonorTier.bronze) ∧
    (∀ caller amount s d vb wb rent s1 d1 vb1 wb1,
       refund_donation caller amount s d vb wb rent = .ok (s1, d1, vb1, wb1) →
       d1.tier = calculate_tier d1.total_donated ∧
       (d1.total_donated = 0 → d1.tier = DonorTier.bronze)) ∧
    (∀ t : DonorTier,
       t = DonorTier.bronze ∨ t = DonorTier.silver ∨ t = DonorTier.gold ∨
       t = DonorTier.platinum) := by
  refine ⟨?_, ?_, ?_⟩
  · intro a ha
    simp only [TIER_SILVER] at ha
    simp only [calculate_tier, TIER_PLATINUM, TIER_GOLD, TIER_SILVER, ge_iff_le]
    split_ifs <;> first | rfl | omega
  · intro caller amount s d vb wb rent s1 d1 vb1 wb1 h
    unfold refund_donation at h
    split at h
    · exact Except.noConfusion h
    split at h
    · exact Except.noConfusion h
    split at h
    · exact Except.noConfusion h
    split at h
    · exact Except.noConfusion h
    split at h
    · exact Except.noConfusion h
    rename_i dtd heq
    simp only [Except.ok.injEq, Prod.mk.injEq] at h
    obtain ⟨hs, hd, hv, hw⟩ := h
    subst hd
    refine ⟨rfl, ?_⟩
    intro h0
    show calculate_tier dtd = DonorTier.bronze
    have : dtd = 0 := h0
    rw [this]
    decide
  · intro t
    cases t <;> simp

/-- Witness for claim C10: `calculate_tier` at a concrete sub-Silver amount,
and a concrete full refund of `sampleDonor` leaving a Bronze record. -/
theorem bronze_floor_witness :
    calculate_tier 99999999 = DonorTier.bronze ∧
    refundedDonor.tier = calculate_tier refundedDonor.total_donated ∧
    refundedDonor.tier = DonorTier.bronze :=
  ⟨bronze_floor.1 99999999 (by decide),
   (bronze_floor.2.1 1 10 sampleVault sampleDonor 10000 0 5000
      sampleVault refundedDonor 9990 10 (by rfl)).1,
   (bronze_floor.2.1 1 10 sampleVault sampleDonor 10000 0 5000
      sampleVault refundedDonor 9990 10 (by rfl)).2 (by decide)⟩

/-- Closed form of `check_milestone_reached`: the loop over the four-element
milestone array as a chain of conditionals. -/
lemma check_milestone_eq (p n : Nat) :
    check_milestone_reached p n =
      if p < MILESTONE_1_SOL ∧ MILESTONE_1_SOL ≤ n then some MILESTONE_1_SOL
      else if p < MILESTONE_10_SOL ∧ MILESTONE_10_SOL ≤ n then some MILESTONE_10_SOL
      else if p < MILESTONE_100_SOL ∧ MILESTONE_100_SOL ≤ n then some MILESTONE_100_SOL
      else if p < MILESTONE_1000_SOL ∧ MILESTONE_1000_SOL ≤ n then some MILESTONE_1000_SOL
      else none := by
  simp only [check_milestone_reached, milestones, List.find?]
  cases hd1 : decide (p < MILESTONE_1_SOL) && decide (n ≥ MILESTONE_1_SOL) <;>
    simp only [ge_iff_le, Bool.and_eq_true, decide_eq_true_eq, Bool.and_eq_false_iff,
               decide_eq_false_iff_not, not_lt, not_le] at hd1
  · cases hd2 : decide (p < MILESTONE_10_SOL) && decide (n ≥ MILESTONE_10_SOL) <;>
      simp only [ge_iff_le, Bool.and_eq_true, decide_eq_true_eq, Bool.and_eq_false_iff,
                 decide_eq_false_iff_not, not_lt, not_le] at hd2
    · cases hd3 : decide (p < MILESTONE_100_SOL) && decide (n ≥ MILESTONE_100_SOL) <;>
        simp only [ge_iff_le, Bool.and_eq_true, decide_eq_true_eq, Bool.and_eq_false_iff,
                   decide_eq_false_iff_not, not_lt, not_le] at hd3
      · cases hd4 : decide (p < MILESTONE_1000_SOL) && decide (n ≥ MILESTONE_1000_SOL) <;>
          simp only [ge_iff_le, Bool.and_eq_true, decide_eq_true_eq, Bool.and_eq_false_iff,
                     decide_eq_false_iff_not, not_lt, not_le] at hd4
        · rw [if_neg (by omega), if_neg (by omega), if_neg (by omega), if_neg (by omega)]
        · rw [if_neg (by omega), if_neg (by omega), if_neg (by omega),
              if_pos ⟨hd4.1, hd4.2⟩]
      · rw [if_neg (by omega), if_neg (by omega), if_pos ⟨hd3.1, hd3.2⟩]
    · rw [if_neg (by omega), if_pos ⟨hd2.1, hd2.2⟩]
  · rw [if_pos ⟨hd1.1, hd1.2⟩]

/-- Claim C7: `check_milestone_reached previous new` returns `some m` exactly
when `m` is the smallest milestone with `previous < m ≤ new`, and `none`
when no milestone satisfies this; in particular it returns `none` whenever
`new ≤ previous`. -/
theorem milestone_smallest (p n : Nat) :
    (∀ m, check_milestone_reached p n = some m ↔
       (m ∈ milestones ∧ p < m ∧ m ≤ n ∧
        ∀ m2, m2 ∈ milestones → p < m2 → m2 ≤ n → m ≤ m2)) ∧
    (check_milestone_reached p n = none ↔
       ∀ m, m ∈ milestones → ¬ (p < m ∧ m ≤ n)) ∧
    (n ≤ p → check_milestone_reached p n = none) := by
  have heq := check_milestone_eq p n
  refine ⟨?_, ?_, ?_⟩
  · intro m
    rw [heq]
    split_ifs <;>
      simp_all [milestones, MILESTONE_1_SOL, MILESTONE_10_SOL, MILESTONE_100_SOL,
                MILESTONE_1000_SOL] <;> omega
  · rw [heq]
    split_ifs <;>
      simp_all [milestones, MILESTONE_1_SOL, MILESTONE_10_SOL, MILESTONE_100_SOL,
                MILESTONE_1000_SOL]
  · intro hle
    rw [heq]
    split_ifs with g1 g2 g3 g4
    · exact absurd g1 (by simp only [MILESTONE_1_SOL] at *; omega)
    · exact absurd g2 (by simp only [MILESTONE_10_SOL] at *; omega)
    · exact absurd g3 (by simp only [MILESTONE_100_SOL] at *; omega)
    · exact absurd g4 (by simp only [MILESTONE_1000_SOL] at *; omega)
    · rfl

/-- Witness for claim C7: a donation crossing the 1-SOL milestone reports it,
and a non-increase reports nothing. -/
theorem milestone_smallest_witness :
    check_milestone_reached 999999999 1000000000 = some 1000000000 ∧
    check_milestone_reached 5 3 = none :=
  ⟨((milestone_smallest 999999999 1000000000).1 1000000000).mpr (by decide),
   (milestone_smallest 5 3).2.2 (by decide)⟩

/-- Claim C5: every successful `donate` adds `amount` to both the vault's
and the donor's `total_donated` and increments both donation counters by
exactly one. -/
theorem donate_conservation (s : VaultState) (d : DonorInfo) (k vb db a : Nat)
    (t : Int) (s1 : VaultState) (d1 : DonorInfo) (vb1 db1 : Nat)
    (h : donate s d k vb db a t = .ok (s1, d1, vb1, db1)) :
    s1.total_donated = s.total_donated + a ∧
    d1.total_donated = d.total_donated + a ∧
    s1.donation_count = s.donation_count + 1 ∧
    d1.donation_count = d.donation_count + 1 := by
  simp only [donate] at h
  split at h
  · exact Except.noConfusion h
  split at h
  · exact Except.noConfusion h
  split at h
  · exact Except.noConfusion h
  split at h
  · exact Except.noConfusion h
  split at h
  · exact Except.noConfusion h
  rename_i td htd
  split at h
  · exact Except.noConfusion h
  rename_i dc hdc
  split at h
  · exact Except.noConfusion h
  rename_i ud hud
  split at h
  · exact Except.noConfusion h
  rename_i dtd hdtd
  split at h
  · exact Except.noConfusion h
  rename_i ddc hddc
  simp only [Except.ok.injEq, Prod.mk.injEq] at h
  obtain ⟨hs, hd, hvb, hdb⟩ := h
  subst hs
  subst hd
  refine ⟨checkedAdd_some htd, checkedAdd_some hdtd,
          checkedAdd_some hdc, checkedAdd_some hddc⟩

/-- A donor record as Anchor zero-initializes it on first use. -/
def freshDonor : DonorInfo :=
  { donor := 0
    total_donated := 0
    donation_count := 0
    last_donation_timestamp := 0
    tier := .bronze }

/-- State of `sampleVault` after `freshDonor` donates 0.001 SOL. -/
def donatedVault : VaultState :=
  { sampleVault with total_donated := 1000000, donation_count := 1,
                     unique_donors := 1 }

/-- State of `freshDonor` after donating 0.001 SOL as key `2`. -/
def donatedDonor : DonorInfo :=
  { donor := 2
    total_donated := 1000000
    donation_count := 1
    last_donation_timestamp := 7
    tier := .bronze }

/-- Witness for claim C5: a concrete first donation of 0.001 SOL. -/
theorem donate_conservation_witness :
    donatedVault.total_donated = sampleVault.total_donated + 1000000 ∧
    donatedDonor.total_donated = freshDonor.total_donated + 1000000 ∧
    donatedVault.donation_count = sampleVault.donation_count + 1 ∧
    donatedDonor.donation_count = freshDonor.donation_count + 1 :=
  donate_conservation sampleVault freshDonor 2 0 2000000 1000000 7
    donatedVault donatedDonor 1000000 1000000 (by rfl)

/-- Claim C2: a successful `withdraw`, `withdraw_partial` or
`emergency_withdraw` leaves the vault balance at or above the rent-exempt
minimum, and transfers exactly the vault's balance decrease to the admin
(hence never more than `balance - rent_exempt_minimum`). -/
theorem rent_floor_preserved (caller amount : Nat) (s : VaultState)
    (vb ab rent : Nat) :
    (∀ s1 vb1 ab1, withdraw caller s vb ab rent = .ok (s1, vb1, ab1) →
       rent ≤ vb1 ∧ vb1 ≤ vb ∧ ab1 = ab + (vb - vb1)) ∧
    (∀ s1 vb1 ab1, withdraw_partial caller amount s vb ab rent = .ok (s1, vb1, ab1) →
       rent ≤ vb1 ∧ vb1 ≤ vb ∧ ab1 = ab + (vb - vb1)) ∧
    (∀ s1 vb1 ab1, emergency_withdraw caller amount s vb ab rent = .ok (s1, vb1, ab1) →
       rent ≤ vb1 ∧ vb1 ≤ vb ∧ ab1 = ab + (vb - vb1)) := by
  refine ⟨?_, ?_, ?_⟩
  · intro s1 vb1 ab1 h
    simp only [withdraw] at h
    split at h
    · exact Except.noConfusion h
    split at h
    · exact Except.noConfusion h
    split at h
    · exact Except.noConfusion h
    split at h
    · exact Except.noConfusion h
    rename_i tw htw
    simp only [Except.ok.injEq, Prod.mk.injEq] at h
    obtain ⟨hs, hvb, hab⟩ := h
    subst hvb
    subst hab
    omega
  · intro s1 vb1 ab1 h
    simp only [ withdraw_partial] at h
    split at h
    · exact Except.noConfusion h
    split at h
    · exact Except.noConfusion h
    split at h
    · exact Except.noConfusion h
    split at h
    · exact Except.noConfusion h
    split at h
    · exact Except.noConfusion h
    rename_i tw htw
    simp only [Except.ok.injEq, Prod.mk.injEq] at h
    obtain ⟨hs, hvb, hab⟩ := h
    subst hvb
    subst hab
    omega
  · intro s1 vb1 ab1 h
    simp only [emergency_withdraw] at h
    split at h
    · exact Except.noConfusion h
    split at h
    · exact Except.noConfusion h
    split at h
    · exact Except.noConfusion h
    rename_i w hw
    split at h
    · exact Except.noConfusion h
    rename_i tw htw
    simp only [Except.ok.injEq, Prod.mk.injEq] at h
    obtain ⟨hs, hvb, hab⟩ := h
    subst hvb
    subst hab
    split at hw
    · split at hw
      · exact Except.noConfusion hw
      · simp only [Except.ok.injEq] at hw
        omega
    · split at hw
      · exact Except.noConfusion hw
      · simp only [Except.ok.injEq] at hw
        omega

/-- State of `sampleVault` after a full withdrawal of 5000 lamports. -/
def withdrawnVaultFull : VaultState := { sampleVault with total_withdrawn := 5000 }

/-- State of `sampleVault` after a partial withdrawal of 2000 lamports. -/
def withdrawnVaultPart : VaultState := { sampleVault with total_withdrawn := 2000 }

/-- Witness for claim C2: concrete successful withdrawals from a vault
holding 10000 lamports with a 5000-lamport rent-exempt minimum. -/
theorem rent_floor_preserved_witness :
    ((5000 : Nat) ≤ 5000 ∧ (5000 : Nat) ≤ 10000 ∧
       (5000 : Nat) = 0 + (10000 - 5000)) ∧
    ((5000 : Nat) ≤ 8000 ∧ (8000 : Nat) ≤ 10000 ∧
       (2000 : Nat) = 0 + (10000 - 8000)) ∧
    ((5000 : Nat) ≤ 8000 ∧ (8000 : Nat) ≤ 10000 ∧
       (2000 : Nat) = 0 + (10000 - 8000)) :=
  ⟨(rent_floor_preserved 1 2000 sampleVault 10000 0 5000).1
      withdrawnVaultFull 5000 5000 (by rfl),
   (rent_floor_preserved 1 2000 sampleVault 10000 0 5000).2.1
      withdrawnVaultPart 8000 2000 (by rfl),
   (rent_floor_preserved 1 2000 sampleVault 10000 0 5000).2.2
      withdrawnVaultPart 8000 2000 (by rfl)⟩

/-- Claim C9: `emergency_withdraw` with `amount = 0` is extensionally equal
to `withdraw`: same successes, same error kinds, same transferred lamports
and same post-call `VaultState` on every input, paused or not. -/
theorem emergency_zero_eq_withdraw (caller : Nat) (s : VaultState)
    (vb ab rent : Nat) :
    emergency_withdraw caller 0 s vb ab rent = withdraw caller s vb ab rent := by
  simp only [emergency_withdraw, withdraw]
  split_ifs <;> rfl

/-- Claim C3: every admin-only operation invoked by a caller different from
`vault_state.admin` fails with `Unauthorized`, and the committed state is
the pre-call state. -/
theorem admin_only_unauthorized (caller newAdmin amount minA maxA : Nat)
    (s : VaultState) (d : DonorInfo) (vb ab wb rent : Nat)
    (h : caller ≠ s.admin) :
    (withdraw caller s vb ab rent = .error (.donation .Unauthorized) ∧
       commit (s, vb, ab) (withdraw caller s vb ab rent) = (s, vb, ab)) ∧
    ( withdraw_partial caller amount s vb ab rent = .error (.donation .Unauthorized) ∧
       commit (s, vb, ab) ( withdraw_partial caller amount s vb ab rent) = (s, vb, ab)) ∧
    (emergency_withdraw caller amount s vb ab rent = .error (.donation .Unauthorized) ∧
       commit (s, vb, ab) (emergency_withdraw caller amount s vb ab rent) = (s, vb, ab)) ∧
    (refund_donation caller amount s d vb wb rent = .error (.donation .Unauthorized) ∧
       commit (s, d, vb, wb) (refund_donation caller amount s d vb wb rent) = (s, d, vb, wb)) ∧
    (pause caller s = .error (.donation .Unauthorized) ∧
       commit s (pause caller s) = s) ∧
    (unpause caller s = .error (.donation .Unauthorized) ∧
       commit s (unpause caller s) = s) ∧
    (update_admin caller newAdmin s = .error (.donation .Unauthorized) ∧
       commit s (update_admin caller newAdmin s) = s) ∧
    (update_donation_limits caller minA maxA s = .error (.donation .Unauthorized) ∧
       commit s (update_donation_limits caller minA maxA s) = s) := by
  simp [withdraw, withdraw_partial, emergency_withdraw, refund_donation,
        pause, unpause, update_admin, update_donation_limits, commit, h]

/-- Witness for claim C3: caller `5` is not the admin (`1`) of
`sampleVault`, so every admin-gated operation rejects it. -/
theorem admin_only_unauthorized_witness :
    withdraw 5 sampleVault 10000 0 5000 = .error (.donation .Unauthorized) ∧
    pause 5 sampleVault = .error (.donation .Unauthorized) :=
  ⟨(admin_only_unauthorized 5 3 100 1 2 sampleVault sampleDonor
      10000 0 0 5000 (by decide)).1.1,
   (admin_only_unauthorized 5 3 100 1 2 sampleVault sampleDonor
      10000 0 0 5000 (by decide)).2.2.2.2.1.1⟩

/-- Claim C1: every operation that returns an error commits no change: the
runtime discards all account writes of a failed instruction, so `VaultState`
and every `DonorInfo` equal their pre-call values (this covers error paths
reached late in `donate`, e.g. the donor-side `checked_add` overflow that
occurs after the vault-side counters were updated in the working copy).
`initialize` is included via its error-freeness: its body never errors. -/
theorem rollback_on_failure :
    (∀ s d k vb db a t e, donate s d k vb db a t = .error e →
       commit (s, d, vb, db) (donate s d k vb db a t) = (s, d, vb, db)) ∧
    (∀ c s vb ab rent e, withdraw c s vb ab rent = .error e →
       commit (s, vb, ab) (withdraw c s vb ab rent) = (s, vb, ab)) ∧
    (∀ c a s vb ab rent e, withdraw_partial c a s vb ab rent = .error e →
       commit (s, vb, ab) ( withdraw_partial c a s vb ab rent) = (s, vb, ab)) ∧
    (∀ c a s vb ab rent e, emergency_withdraw c a s vb ab rent = .error e →
       commit (s, vb, ab) (emergency_withdraw c a s vb ab rent) = (s, vb, ab)) ∧
    (∀ c a s d vb wb rent e, refund_donation c a s d vb wb rent = .error e →
       commit (s, d, vb, wb) (refund_donation c a s d vb wb rent) = (s, d, vb, wb)) ∧
    (∀ c s e, pause c s = .error e → commit s (pause c s) = s) ∧
    (∀ c s e, unpause c s = .error e → commit s (unpause c s) = s) ∧
    (∀ c n s e, update_admin c n s = .error e → commit s (update_admin c n s) = s) ∧
    (∀ c mn mx s e, update_donation_limits c mn mx s = .error e →
       commit s (update_donation_limits c mn mx s) = s) ∧
    (∀ a b e, initVault a b ≠ .error e) := by
  refine ⟨?_, ?_, ?_, ?_, ?_, ?_, ?_, ?_, ?_, ?_⟩
  · intro s d k vb db a t e h
    rw [h]
    rfl
  · intro c s vb ab rent e h
    rw [h]
    rfl
  · intro c a s vb ab rent e h
    rw [h]
    rfl
  · intro c a s vb ab rent e h
    rw [h]
    rfl
  · intro c a s d vb wb rent e h
    rw [h]
    rfl
  · intro c s e h
    rw [h]
    rfl
  · intro c s e h
    rw [h]
    rfl
  · intro c n s e h
    rw [h]
    rfl
  · intro c mn mx s e h
    rw [h]
    rfl
  · intro a b e h
    exact absurd h (by simp [initVault])

/-- Witness for claim C1: `maxDonor` makes a valid donation whose donor-side
`checked_add` overflows after the vault counters were updated; the committed
state is the pre-call state. -/
theorem rollback_on_failure_witness :
    commit (sampleVault, maxDonor, 0, 1000000)
        (donate sampleVault maxDonor 2 0 1000000 1000000 0) =
      (sampleVault, maxDonor, 0, 1000000) :=
  rollback_on_failure.1 sampleVault maxDonor 2 0 1000000 1000000 0
    (.donation .Overflow) (by rfl)

/-- Counterexample to claim C4: `pause` called by the admin on an
already-paused vault succeeds (as an idempotent no-op) instead of failing
with `ContractPaused`, and `unpause` on an unpaused vault succeeds likewise;
the program's error enum has no `ContractNotPaused` variant at all. -/
theorem pause_state_check_counterexample :
    pausedVault.admin = 1 ∧
    pausedVault.is_paused = true ∧
    pause 1 pausedVault = .ok pausedVault ∧
    pause 1 pausedVault ≠ .error (.donation .ContractPaused) ∧
    sampleVault.is_paused = false ∧
    unpause 1 sampleVault = .ok sampleVault := by
  refine ⟨rfl, rfl, rfl, ?_, rfl, rfl⟩
  intro hh
  exact Except.noConfusion hh

/-- Claim C4 (amended): `pause` by the admin always succeeds and sets
`is_paused` to `true` (a no-op when already paused), `unpause` by the admin
always succeeds and sets `is_paused` to `false` (a no-op when not paused);
neither performs a state check, returns an error, or touches any other
field. -/
theorem pause_unpause_idempotent (caller : Nat) (s : VaultState)
    (h : caller = s.admin) :
    pause caller s = .ok { s with is_paused := true } ∧
    unpause caller s = .ok { s with is_paused := false } := by
  subst h
  simp [pause, unpause]

/-- Witness for amended claim C4: the admin pauses an already-paused vault
and unpauses it. -/
theorem pause_unpause_idempotent_witness :
    pause 1 pausedVault = .ok { pausedVault with is_paused := true } ∧
    unpause 1 pausedVault = .ok { pausedVault with is_paused := false } :=
  pause_unpause_idempotent 1 pausedVault (by rfl)

/-- Counterexample to claim C8: an admin call of `update_donation_limits`
with `min_amount = 0` (or `max ≤ min`) fails with `InvalidAmount`, not with
`InvalidLimits` as claimed. -/
theorem update_limits_error_kind_counterexample :
    sampleVault.admin = 1 ∧
    update_donation_limits 1 0 5 sampleVault = .error (.donation .InvalidAmount) ∧
    update_donation_limits 1 0 5 sampleVault ≠ .error (.donation .InvalidLimits) ∧
    update_donation_limits 1 7 7 sampleVault = .error (.donation .InvalidAmount) := by
  refine ⟨rfl, rfl, ?_, rfl⟩
  intro hh
  simp [update_donation_limits, sampleVault] at hh

/-- Claim C8 (amended): for an admin caller, `update_donation_limits` with
`min_amount = 0` or `max_amount ≤ min_amount` fails with `InvalidAmount`
(the code's error kind; the spec's `InvalidLimits` variant is unused) and
commits nothing; with `0 < min_amount < max_amount` it succeeds and sets
both limits. -/
theorem update_limits_validation (caller minA maxA : Nat) (s : VaultState)
    (h : caller = s.admin) :
    ((minA = 0 ∨ maxA ≤ minA) →
       update_donation_limits caller minA maxA s = .error (.donation .InvalidAmount) ∧
       commit s (update_donation_limits caller minA maxA s) = s) ∧
    (0 < minA → minA < maxA →
       update_donation_limits caller minA maxA s =
         .ok { s with min_donation_amount := minA, max_donation_amount := maxA }) := by
  subst h
  constructor
  · intro hc
    have herr : update_donation_limits s.admin minA maxA s =
        .error (.donation .InvalidAmount) := by
      unfold update_donation_limits
      rw [if_neg (by simp)]
      by_cases hm : minA = 0
      · rw [if_pos hm]
      · have hmx : maxA ≤ minA := by
          rcases hc with h0 | h0
          · exact absurd h0 hm
          · exact h0
        rw [if_neg hm, if_pos hmx]
    refine ⟨herr, ?_⟩
    rw [herr]
    rfl
  · intro h1 h2
    unfold update_donation_limits
    rw [if_neg (by simp), if_neg (by omega), if_neg (by omega)]

/-- Witness for amended claim C8: a rejected `min = 0` update and an
accepted `min = 5 < max = 9` update on `sampleVault`. -/
theorem update_limits_validation_witness :
    (update_donation_limits 1 0 5 sampleVault = .error (.donation .InvalidAmount) ∧
       commit sampleVault (update_donation_limits 1 0 5 sampleVault) = sampleVault) ∧
    update_donation_limits 1 5 9 sampleVault =
      .ok { sampleVault with min_donation_amount := 5, max_donation_amount := 9 } :=
  ⟨(update_limits_validation 1 0 5 sampleVault rfl).1 (Or.inl rfl),
   (update_limits_validation 1 5 9 sampleVault rfl).2 (by decide) (by decide)⟩
